import Mathlib

/-
Verification of the sprite layer of the arcade repository
(src/arcade/sprite.py) against its natural-language specification.

Python floats are modelled as real numbers.  The geometry utility
`rotate` lives in the repository's geometry module, which is not part of
the provided sources, so it is modelled from the spec.  Python lists are
Lean lists; Python object identity for sprites and sprite lists is
modelled with natural-number ids in the membership model further below.
-/

namespace Arcade

/-- Modelled from the spec: the geometry utility is missing from src/.
Section 4.1 specifies `rotate(px, py, pivot_x, pivot_y, angle_degrees)`:
a pure rotation of the point (px, py) about the pivot by the given angle
in degrees, with one fixed trigonometric sign convention.  We use the
standard counter-clockwise convention, converting degrees to radians.
The x component of the rotated point. -/
noncomputable def rotX (x y cx cy angle : ℝ) : ℝ :=
  (x - cx) * Real.cos (angle * Real.pi / 180) -
    (y - cy) * Real.sin (angle * Real.pi / 180) + cx

/-- Modelled from the spec: y component of the rotated point, see rotX. -/
noncomputable def rotY (x y cx cy angle : ℝ) : ℝ :=
  (x - cx) * Real.sin (angle * Real.pi / 180) +
    (y - cy) * Real.cos (angle * Real.pi / 180) + cy

/-- Modelled from the spec: `rotate` returns the rotated point as a pair. -/
noncomputable def rotate (x y cx cy angle : ℝ) : ℝ × ℝ :=
  (rotX x y cx cy angle, rotY x y cx cy angle)

/-- A frame stored in a sprite's texture list.  `texture w h` is a real
Texture instance with pixel width w and height h; `other` is any
non-Texture value (append_texture performs no validation, so such values
can be stored). -/
inductive Frame where
  | texture (width height : ℝ) : Frame
  | other : Frame

/-- State of arcade.Sprite (sprite.py, class Sprite).  `_texture` is the
slot behind the `texture` property; it is `none` while the attribute has
never been assigned (frame-less construction).  `cur_texture_index` is an
integer because Python's set_texture stores the raw (possibly negative)
index.  `sprite_lists` holds ids of the SpriteLists registered as
back-references. -/
structure Sprite where
  _texture : Option Frame
  textures : List Frame
  cur_texture_index : Int
  scale : ℝ
  center_x : ℝ
  center_y : ℝ
  width : ℝ
  height : ℝ
  angle : ℝ
  change_x : ℝ
  change_y : ℝ
  change_angle : ℝ
  alpha : ℝ
  sprite_lists : List Nat
  transparent : Bool

/-- Sprite.get_points: the four corners of the (possibly rotated)
rectangle, each axis-aligned corner rotated about the current center by
the current angle, in the source's order: bottom-left, bottom-right,
top-right, top-left. -/
noncomputable def Sprite.get_points (s : Sprite) : (ℝ × ℝ) × (ℝ × ℝ) × (ℝ × ℝ) × (ℝ × ℝ) :=
  (rotate (s.center_x - s.width / 2) (s.center_y - s.height / 2)
      s.center_x s.center_y s.angle,
   rotate (s.center_x + s.width / 2) (s.center_y - s.height / 2)
      s.center_x s.center_y s.angle,
   rotate (s.center_x + s.width / 2) (s.center_y + s.height / 2)
      s.center_x s.center_y s.angle,
   rotate (s.center_x - s.width / 2) (s.center_y + s.height / 2)
      s.center_x s.center_y s.angle)

/-- Sprite._get_bottom: the minimum y coordinate over the four points. -/
noncomputable def Sprite.bottom (s : Sprite) : ℝ :=
  min (min (min s.get_points.1.2 s.get_points.2.1.2) s.get_points.2.2.1.2)
    s.get_points.2.2.2.2

/-- Sprite._set_bottom: diff = lowest - amount; center_y -= diff. -/
noncomputable def Sprite.set_bottom (s : Sprite) (amount : ℝ) : Sprite :=
  { s with center_y := s.center_y - (s.bottom - amount) }

/-- Sprite._get_top: the maximum y coordinate over the four points. -/
noncomputable def Sprite.top (s : Sprite) : ℝ :=
  max (max (max s.get_points.1.2 s.get_points.2.1.2) s.get_points.2.2.1.2)
    s.get_points.2.2.2.2

/-- Sprite._set_top: diff = highest - amount; center_y -= diff. -/
noncomputable def Sprite.set_top (s : Sprite) (amount : ℝ) : Sprite :=
  { s with center_y := s.center_y - (s.top - amount) }

/-- Sprite._get_left: the minimum x coordinate over the four points. -/
noncomputable def Sprite.left (s : Sprite) : ℝ :=
  min (min (min s.get_points.1.1 s.get_points.2.1.1) s.get_points.2.2.1.1)
    s.get_points.2.2.2.1

/-- Sprite._set_left: diff = amount - leftmost; center_x += diff. -/
noncomputable def Sprite.set_left (s : Sprite) (amount : ℝ) : Sprite :=
  { s with center_x := s.center_x + (amount - s.left) }

/-- Sprite._get_right: the maximum x coordinate over the four points. -/
noncomputable def Sprite.right (s : Sprite) : ℝ :=
  max (max (max s.get_points.1.1 s.get_points.2.1.1) s.get_points.2.2.1.1)
    s.get_points.2.2.2.1

/-- Sprite._set_right: diff = rightmost - amount; center_x -= diff. -/
noncomputable def Sprite.set_right (s : Sprite) (amount : ℝ) : Sprite :=
  { s with center_x := s.center_x - (s.right - amount) }

/-- A plain sprite with the given center, size and angle, as produced by
frame-less construction followed by direct field assignments; used for
the spec's concrete scenarios. -/
noncomputable def mkSprite (cx cy w h ang : ℝ) : Sprite :=
  { _texture := none, textures := [], cur_texture_index := 0, scale := 0,
    center_x := cx, center_y := cy, width := w, height := h, angle := ang,
    change_x := 0, change_y := 0, change_angle := 0, alpha := 1,
    sprite_lists := [], transparent := true }

/-- C1: each bounding-edge setter updates only the relevant center
coordinate, with the source's exact sign convention (bottom:
center_y -= currentBottom - T; top: center_y -= currentTop - T; left:
center_x += T - currentLeft; right: center_x -= currentRight - T, where
the current edges are the min/max of the relevant coordinate over the
four points of get_points at call time), and width, height, angle and
the other center coordinate are unchanged by every setter. -/
theorem c1_edge_setters (s : Sprite) (T : ℝ) :
    (s.set_bottom T).center_y = s.center_y -
      (min (min (min s.get_points.1.2 s.get_points.2.1.2) s.get_points.2.2.1.2)
        s.get_points.2.2.2.2 - T) ∧
    (s.set_top T).center_y = s.center_y -
      (max (max (max s.get_points.1.2 s.get_points.2.1.2) s.get_points.2.2.1.2)
        s.get_points.2.2.2.2 - T) ∧
    (s.set_left T).center_x = s.center_x +
      (T - min (min (min s.get_points.1.1 s.get_points.2.1.1) s.get_points.2.2.1.1)
        s.get_points.2.2.2.1) ∧
    (s.set_right T).center_x = s.center_x -
      (max (max (max s.get_points.1.1 s.get_points.2.1.1) s.get_points.2.2.1.1)
        s.get_points.2.2.2.1 - T) ∧
    (s.set_bottom T).center_x = s.center_x ∧
    (s.set_top T).center_x = s.center_x ∧
    (s.set_left T).center_y = s.center_y ∧
    (s.set_right T).center_y = s.center_y ∧
    (s.set_bottom T).width = s.width ∧ (s.set_bottom T).height = s.height ∧
    (s.set_bottom T).angle = s.angle ∧
    (s.set_top T).width = s.width ∧ (s.set_top T).height = s.height ∧
    (s.set_top T).angle = s.angle ∧
    (s.set_left T).width = s.width ∧ (s.set_left T).height = s.height ∧
    (s.set_left T).angle = s.angle ∧
    (s.set_right T).width = s.width ∧ (s.set_right T).height = s.height ∧
    (s.set_right T).angle = s.angle := by
  refine ⟨rfl, rfl, rfl, rfl, rfl, rfl, rfl, rfl, rfl, rfl, rfl, rfl, rfl,
    rfl, rfl, rfl, rfl, rfl, rfl, rfl⟩

lemma rotY_shift_y (x y cx cy ang d : ℝ) :
    rotY x (y + d) cx (cy + d) ang = rotY x y cx cy ang + d := by
  unfold rotY; ring

lemma rotX_shift_x (x y cx cy ang d : ℝ) :
    rotX (x + d) y (cx + d) cy ang = rotX x y cx cy ang + d := by
  unfold rotX; ring

lemma rotX_zero (x y cx cy : ℝ) : rotX x y cx cy 0 = x := by
  unfold rotX
  rw [zero_mul, zero_div, Real.sin_zero, Real.cos_zero]; ring

lemma rotY_zero (x y cx cy : ℝ) : rotY x y cx cy 0 = y := by
  unfold rotY
  rw [zero_mul, zero_div, Real.sin_zero, Real.cos_zero]; ring

lemma min4_add (a b c d e : ℝ) :
    min (min (min (a + e) (b + e)) (c + e)) (d + e) =
      min (min (min a b) c) d + e := by
  rw [min_add_add_right, min_add_add_right, min_add_add_right]

lemma max4_add (a b c d e : ℝ) :
    max (max (max (a + e) (b + e)) (c + e)) (d + e) =
      max (max (max a b) c) d + e := by
  rw [max_add_add_right, max_add_add_right, max_add_add_right]

lemma bottom_shift_y (s : Sprite) (d : ℝ) :
    Sprite.bottom { s with center_y := s.center_y + d } = s.bottom + d := by
  unfold Sprite.bottom Sprite.get_points rotate
  dsimp only
  have h1 : s.center_y + d - s.height / 2 = s.center_y - s.height / 2 + d := by
    ring
  have h2 : s.center_y + d + s.height / 2 = s.center_y + s.height / 2 + d := by
    ring
  rw [h1, h2, rotY_shift_y, rotY_shift_y, rotY_shift_y, rotY_shift_y, min4_add]

lemma top_shift_y (s : Sprite) (d : ℝ) :
    Sprite.top { s with center_y := s.center_y + d } = s.top + d := by
  unfold Sprite.top Sprite.get_points rotate
  dsimp only
  have h1 : s.center_y + d - s.height / 2 = s.center_y - s.height / 2 + d := by
    ring
  have h2 : s.center_y + d + s.height / 2 = s.center_y + s.height / 2 + d := by
    ring
  rw [h1, h2, rotY_shift_y, rotY_shift_y, rotY_shift_y, rotY_shift_y, max4_add]

lemma left_shift_x (s : Sprite) (d : ℝ) :
    Sprite.left { s with center_x := s.center_x + d } = s.left + d := by
  unfold Sprite.left Sprite.get_points rotate
  dsimp only
  have h1 : s.center_x + d - s.width / 2 = s.center_x - s.width / 2 + d := by
    ring
  have h2 : s.center_x + d + s.width / 2 = s.center_x + s.width / 2 + d := by
    ring
  rw [h1, h2, rotX_shift_x, rotX_shift_x, rotX_shift_x, rotX_shift_x, min4_add]

lemma right_shift_x (s : Sprite) (d : ℝ) :
    Sprite.right { s with center_x := s.center_x + d } = s.right + d := by
  unfold Sprite.right Sprite.get_points rotate
  dsimp only
  have h1 : s.center_x + d - s.width / 2 = s.center_x - s.width / 2 + d := by
    ring
  have h2 : s.center_x + d + s.width / 2 = s.center_x + s.width / 2 + d := by
    ring
  rw [h1, h2, rotX_shift_x, rotX_shift_x, rotX_shift_x, rotX_shift_x, max4_add]

lemma set_bottom_round (s : Sprite) (T : ℝ) : (s.set_bottom T).bottom = T := by
  show Sprite.bottom { s with center_y := s.center_y - (s.bottom - T) } = T
  rw [show s.center_y - (s.bottom - T) = s.center_y + (T - s.bottom) from by ring,
    bottom_shift_y]
  ring

lemma set_top_round (s : Sprite) (T : ℝ) : (s.set_top T).top = T := by
  show Sprite.top { s with center_y := s.center_y - (s.top - T) } = T
  rw [show s.center_y - (s.top - T) = s.center_y + (T - s.top) from by ring,
    top_shift_y]
  ring

lemma set_left_round (s : Sprite) (T : ℝ) : (s.set_left T).left = T := by
  show Sprite.left { s with center_x := s.center_x + (T - s.left) } = T
  rw [left_shift_x]
  ring

lemma set_right_round (s : Sprite) (T : ℝ) : (s.set_right T).right = T := by
  show Sprite.right { s with center_x := s.center_x - (s.right - T) } = T
  rw [show s.center_x - (s.right - T) = s.center_x + (T - s.right) from by ring,
    right_shift_x]
  ring

lemma mkSprite_unit_bottom : (mkSprite 0 0 1 1 0).bottom = -(1 / 2) := by
  unfold Sprite.bottom Sprite.get_points rotate mkSprite
  dsimp only
  rw [rotY_zero, rotY_zero, rotY_zero, rotY_zero]
  norm_num

/-- C2: setting any edge to T and reading it back returns T, for every
prior sprite state; and the spec's concrete scenario: a sprite at (0,0)
with width 1, height 1, angle 0 has bottom -0.5, and after setting
bottom to 1 its center_y is 1.5 and bottom reads 1. -/
theorem c2_set_get_round_trip (s : Sprite) (T : ℝ) :
    (s.set_bottom T).bottom = T ∧ (s.set_top T).top = T ∧
    (s.set_left T).left = T ∧ (s.set_right T).right = T ∧
    (mkSprite 0 0 1 1 0).bottom = -(1 / 2) ∧
    ((mkSprite 0 0 1 1 0).set_bottom 1).center_y = 3 / 2 ∧
    ((mkSprite 0 0 1 1 0).set_bottom 1).bottom = 1 := by
  refine ⟨set_bottom_round s T, set_top_round s T, set_left_round s T,
    set_right_round s T, mkSprite_unit_bottom, ?_, set_bottom_round _ 1⟩
  show (mkSprite 0 0 1 1 0).center_y - ((mkSprite 0 0 1 1 0).bottom - 1) = 3 / 2
  rw [mkSprite_unit_bottom]
  show (0 : ℝ) - (-(1 / 2) - 1) = 3 / 2
  norm_num

/-- C3: for an angle-0 sprite, get_points returns the four axis-aligned
corners in order bottom-left, bottom-right, top-right, top-left, and the
edge getters return center ± half extent (the getter part uses the data
model invariant that width and height are non-negative); for every
sprite, get_points equals the rotation utility applied to those four
pre-rotation corners about the center by the current angle, in that
order. -/
theorem c3_get_points (s : Sprite) :
    (s.angle = 0 →
      s.get_points = ((s.center_x - s.width / 2, s.center_y - s.height / 2),
        (s.center_x + s.width / 2, s.center_y - s.height / 2),
        (s.center_x + s.width / 2, s.center_y + s.height / 2),
        (s.center_x - s.width / 2, s.center_y + s.height / 2))) ∧
    (s.angle = 0 → 0 ≤ s.width → 0 ≤ s.height →
      s.bottom = s.center_y - s.height / 2 ∧
      s.top = s.center_y + s.height / 2 ∧
      s.left = s.center_x - s.width / 2 ∧
      s.right = s.center_x + s.width / 2) ∧
    s.get_points =
      (rotate (s.center_x - s.width / 2) (s.center_y - s.height / 2)
        s.center_x s.center_y s.angle,
       rotate (s.center_x + s.width / 2) (s.center_y - s.height / 2)
        s.center_x s.center_y s.angle,
       rotate (s.center_x + s.width / 2) (s.center_y + s.height / 2)
        s.center_x s.center_y s.angle,
       rotate (s.center_x - s.width / 2) (s.center_y + s.height / 2)
        s.center_x s.center_y s.angle) := by
  refine ⟨?_, ?_, rfl⟩
  · intro h
    unfold Sprite.get_points rotate
    rw [h, rotX_zero, rotY_zero, rotX_zero, rotY_zero, rotX_zero, rotY_zero,
      rotX_zero, rotY_zero]
  · intro h hw hh
    refine ⟨?_, ?_, ?_, ?_⟩
    · unfold Sprite.bottom Sprite.get_points rotate
      dsimp only
      rw [h, rotY_zero, rotY_zero, rotY_zero, rotY_zero]
      simp only [min_def]
      split_ifs <;> linarith
    · unfold Sprite.top Sprite.get_points rotate
      dsimp only
      rw [h, rotY_zero, rotY_zero, rotY_zero, rotY_zero]
      simp only [max_def]
      split_ifs <;> linarith
    · unfold Sprite.left Sprite.get_points rotate
      dsimp only
      rw [h, rotX_zero, rotX_zero, rotX_zero, rotX_zero]
      simp only [min_def]
      split_ifs <;> linarith
    · unfold Sprite.right Sprite.get_points rotate
      dsimp only
      rw [h, rotX_zero, rotX_zero, rotX_zero, rotX_zero]
      simp only [max_def]
      split_ifs <;> linarith

/-- C3 witness: the edge getters evaluated on a concrete angle-0 sprite
at center (1,2) with width 4 and height 6. -/
theorem c3_get_points_witness :
    (mkSprite 1 2 4 6 0).bottom =
      (mkSprite 1 2 4 6 0).center_y - (mkSprite 1 2 4 6 0).height / 2 ∧
    (mkSprite 1 2 4 6 0).top =
      (mkSprite 1 2 4 6 0).center_y + (mkSprite 1 2 4 6 0).height / 2 ∧
    (mkSprite 1 2 4 6 0).left =
      (mkSprite 1 2 4 6 0).center_x - (mkSprite 1 2 4 6 0).width / 2 ∧
    (mkSprite 1 2 4 6 0).right =
      (mkSprite 1 2 4 6 0).center_x + (mkSprite 1 2 4 6 0).width / 2 :=
  (c3_get_points (mkSprite 1 2 4 6 0)).2.1 rfl
    (by norm_num [mkSprite]) (by norm_num [mkSprite])

/-
Membership model.  Python sprite lists and sprites are compared by
object identity; we model sprite identity by a natural-number id and a
SpriteList by its id.  A state holds the contents of every sprite list
(`lists lid` is the sequence of sprite ids in the list with id `lid`;
unused ids hold the empty list) and the `sprite_lists` back-reference
sequence of one tracked sprite.
-/

/-- Errors raised by the SpriteList operations, per the spec taxonomy:
pop on an empty list and removal of an absent member. -/
inductive SLError where
  | EmptyCollection : SLError
  | NotFound : SLError
deriving DecidableEq

/-- State of the membership model: contents of every sprite list and the
back-reference sequence (list ids) of the tracked sprite. -/
structure MState where
  lists : Nat → List Nat
  backrefs : List Nat

/-- One iteration of Sprite.kill's loop over self.sprite_lists: if the
sprite is a member of the list, remove its first occurrence (Python
list.remove), otherwise do nothing. -/
def killStep (sid : Nat) (ls : Nat → List Nat) (lid : Nat) : Nat → List Nat :=
  if sid ∈ ls lid then Function.update ls lid ((ls lid).erase sid) else ls

/-- Sprite.kill's loop over the back-reference sequence, in order. -/
def killFold (sid : Nat) (backrefs : List Nat) (ls : Nat → List Nat) :
    Nat → List Nat :=
  backrefs.foldl (killStep sid) ls

/-- Sprite.kill for the tracked sprite: updates list contents only; the
back-reference sequence is not touched by the source. -/
def MState.kill (st : MState) (sid : Nat) : MState :=
  { lists := killFold sid st.backrefs st.lists, backrefs := st.backrefs }

/-- SpriteList.append of the tracked sprite to list lid: appends the
sprite id to the list and registers the list id into the sprite's
back-reference sequence (Sprite._register_sprite_list). -/
def MState.appendSelf (st : MState) (sid lid : Nat) : MState :=
  { lists := Function.update st.lists lid (st.lists lid ++ [sid]),
    backrefs := st.backrefs ++ [lid] }

/-- SpriteList.remove: removes the first occurrence of x from list lid,
failing with NotFound (Python ValueError) when x is not a member; the
sprite's back-references are untouched. -/
def MState.removeSprite (st : MState) (lid x : Nat) : Except SLError MState :=
  if x ∈ st.lists lid then
    .ok { lists := Function.update st.lists lid ((st.lists lid).erase x),
          backrefs := st.backrefs }
  else .error .NotFound

/-- SpriteList.pop: removes and returns the last element of list lid,
failing with EmptyCollection (Python IndexError) when the list is empty;
back-references are untouched.  On failure no state is produced, so the
pre-call state persists unchanged. -/
def MState.popList (st : MState) (lid : Nat) :
    Except SLError (MState × Nat) :=
  if h : st.lists lid = [] then .error .EmptyCollection
  else
    .ok ({ lists := Function.update st.lists lid (st.lists lid).dropLast,
           backrefs := st.backrefs },
         (st.lists lid).getLast h)

/-- Reachable-state invariant tying the membership counts to the
back-reference counts: the tracked sprite occurs in each list at most as
often as that list is registered in the sprite's back-references (every
membership was created by an append, which also registers). -/
def KWF (sid : Nat) (backrefs : List Nat) (ls : Nat → List Nat) : Prop :=
  ∀ lid, (ls lid).count sid ≤ backrefs.count lid

lemma killFold_cons (sid b : Nat) (rest : List Nat) (ls : Nat → List Nat) :
    killFold sid (b :: rest) ls = killFold sid rest (killStep sid ls b) :=
  rfl

lemma killStep_KWF (sid b : Nat) (rest : List Nat) (ls : Nat → List Nat)
    (h : KWF sid (b :: rest) ls) : KWF sid rest (killStep sid ls b) := by
  intro lid
  unfold killStep
  by_cases hm : sid ∈ ls b
  · rw [if_pos hm]
    rcases eq_or_ne lid b with rfl | hne
    · rw [Function.update_same, List.count_erase_self]
      have := h lid
      rw [List.count_cons_self] at this
      omega
    · rw [Function.update_noteq hne]
      have := h lid
      rwa [List.count_cons_of_ne hne] at this
  · rw [if_neg hm]
    rcases eq_or_ne lid b with rfl | hne
    · have : (ls lid).count sid = 0 := List.count_eq_zero.mpr hm
      omega
    · have := h lid
      rwa [List.count_cons_of_ne hne] at this

lemma killFold_spec (sid : Nat) :
    ∀ (backrefs : List Nat) (ls : Nat → List Nat), KWF sid backrefs ls →
      ∀ lid, ((killFold sid backrefs ls) lid).count sid = 0 ∧
        ((killFold sid backrefs ls) lid).length + (ls lid).count sid =
          (ls lid).length := by
  intro backrefs
  induction backrefs with
  | nil =>
    intro ls h lid
    have h0 := h lid
    simp only [List.count_nil] at h0
    have : (ls lid).count sid = 0 := Nat.le_zero.mp h0
    unfold killFold
    simp [this]
  | cons b rest ih =>
    intro ls h lid
    rw [killFold_cons]
    have hwf := killStep_KWF sid b rest ls h
    obtain ⟨hc, hl⟩ := ih (killStep sid ls b) hwf lid
    refine ⟨hc, ?_⟩
    unfold killStep at hl ⊢
    by_cases hm : sid ∈ ls b
    · rw [if_pos hm] at hl ⊢
      rcases eq_or_ne lid b with rfl | hne
      · rw [Function.update_same] at hl
        rw [List.count_erase_self, List.length_erase_of_mem hm] at hl
        have hpos : 0 < (ls lid).count sid := List.count_pos_iff.mpr hm
        have hlen : 0 < (ls lid).length := List.length_pos_of_mem hm
        omega
      · rwa [Function.update_noteq hne] at hl
    · rwa [if_neg hm] at hl ⊢

lemma killFold_not_mem (sid : Nat) (backrefs : List Nat) (ls : Nat → List Nat)
    (h : KWF sid backrefs ls) (lid : Nat) :
    sid ∉ (killFold sid backrefs ls) lid := by
  have := (killFold_spec sid backrefs ls h lid).1
  exact List.count_eq_zero.mp this

lemma killFold_of_not_mem (sid : Nat) :
    ∀ (backrefs : List Nat) (ls : Nat → List Nat),
      (∀ lid, sid ∉ ls lid) → killFold sid backrefs ls = ls := by
  intro backrefs
  induction backrefs with
  | nil => intro ls _; rfl
  | cons b rest ih =>
    intro ls h
    rw [killFold_cons]
    have : killStep sid ls b = ls := by
      unfold killStep
      rw [if_neg (h b)]
    rw [this]
    exact ih ls h

lemma appendSelf_KWF (sid lid : Nat) (st : MState)
    (h : KWF sid st.backrefs st.lists) :
    KWF sid (st.appendSelf sid lid).backrefs (st.appendSelf sid lid).lists := by
  intro j
  unfold MState.appendSelf
  dsimp only
  rcases eq_or_ne j lid with rfl | hne
  · rw [Function.update_same, List.count_append, List.count_append]
    have := h j
    have e1 : ([sid] : List Nat).count sid = 1 := by simp
    have e2 : ([j] : List Nat).count j = 1 := by simp
    omega
  · rw [Function.update_noteq hne, List.count_append]
    have := h j
    have hz : ([lid] : List Nat).count j = 0 := by
      rw [List.count_cons_of_ne hne, List.count_nil]
    omega

/-- C4: under the reachable-state invariant, kill removes the tracked
sprite from every list registered in its back-references (and indeed from
every list); appending the sprite to a list it is not in and killing it
leaves it a non-member with the list length back down by exactly one;
appending it to two different lists and killing removes it from both; and
kill is idempotent: a second kill changes no list and raises no error. -/
theorem c4_kill (sid l1 l2 : Nat) (st : MState)
    (hwf : KWF sid st.backrefs st.lists)
    (h1 : sid ∉ st.lists l1) (h2 : sid ∉ st.lists l2) (hne : l1 ≠ l2) :
    (∀ lid ∈ st.backrefs, sid ∉ (st.kill sid).lists lid) ∧
    (sid ∉ ((st.appendSelf sid l1).kill sid).lists l1 ∧
      (((st.appendSelf sid l1).kill sid).lists l1).length + 1 =
        ((st.appendSelf sid l1).lists l1).length) ∧
    (sid ∉ (((st.appendSelf sid l1).appendSelf sid l2).kill sid).lists l1 ∧
      sid ∉ (((st.appendSelf sid l1).appendSelf sid l2).kill sid).lists l2) ∧
    (st.kill sid).kill sid = st.kill sid := by
  refine ⟨?_, ?_, ?_, ?_⟩
  · intro lid _
    exact killFold_not_mem sid st.backrefs st.lists hwf lid
  · have hwf1 := appendSelf_KWF sid l1 st hwf
    constructor
    · exact killFold_not_mem sid _ _ hwf1 l1
    · have := (killFold_spec sid (st.appendSelf sid l1).backrefs
        (st.appendSelf sid l1).lists hwf1 l1).2
      have hcnt : ((st.appendSelf sid l1).lists l1).count sid = 1 := by
        unfold MState.appendSelf
        dsimp only
        rw [Function.update_same, List.count_append]
        have : (st.lists l1).count sid = 0 := List.count_eq_zero.mpr h1
        simp [this]
      rw [hcnt] at this
      exact this
  · have hwf2 := appendSelf_KWF sid l2 (st.appendSelf sid l1)
      (appendSelf_KWF sid l1 st hwf)
    exact ⟨killFold_not_mem sid _ _ hwf2 l1, killFold_not_mem sid _ _ hwf2 l2⟩
  · unfold MState.kill
    dsimp only
    have hgone : ∀ lid, sid ∉ (killFold sid st.backrefs st.lists) lid :=
      killFold_not_mem sid st.backrefs st.lists hwf
    rw [killFold_of_not_mem sid st.backrefs _ hgone]

/-- C4 witness: a fresh sprite (id 7) appended to the two empty lists 0
and 1 of the empty state and then killed is a member of neither. -/
theorem c4_kill_witness :
    7 ∉ ((((MState.mk (fun _ => []) []).appendSelf 7 0).appendSelf 7 1).kill
      7).lists 0 ∧
    7 ∉ ((((MState.mk (fun _ => []) []).appendSelf 7 0).appendSelf 7 1).kill
      7).lists 1 :=
  (c4_kill 7 0 1 (MState.mk (fun _ => []) [])
    (by intro lid; simp) (by simp) (by simp) (by decide)).2.2.1

/-- C7: pop fails with EmptyCollection exactly on the empty list, and
remove fails with NotFound exactly when the sprite is not a member; in
the failure cases only the error is produced, so the list keeps its
pre-call members and order. -/
theorem c7_pop_remove_errors (st : MState) (lid x : Nat) :
    (st.popList lid = .error .EmptyCollection ↔ st.lists lid = []) ∧
    (st.removeSprite lid x = .error .NotFound ↔ x ∉ st.lists lid) := by
  constructor
  · unfold MState.popList
    split_ifs with h
    · simp [h]
    · simp [h]
  · unfold MState.removeSprite
    split_ifs with h
    · simp [h]
    · simp [h]

/-- C9: the back-reference sequence never shrinks: append extends it by
exactly the registered list id, and kill, remove and pop leave it
untouched (kill's idempotence rests on the per-list membership check,
not on clearing back-references). -/
theorem c9_backrefs_never_shrink (st : MState) (sid lid x : Nat) :
    ((st.appendSelf sid lid).backrefs = st.backrefs ++ [lid]) ∧
    ((st.kill sid).backrefs = st.backrefs) ∧
    (∀ st2, st.removeSprite lid x = .ok st2 → st2.backrefs = st.backrefs) ∧
    (∀ st2 v, st.popList lid = .ok (st2, v) → st2.backrefs = st.backrefs) := by
  refine ⟨rfl, rfl, ?_, ?_⟩
  · intro st2 h
    unfold MState.removeSprite at h
    split_ifs at h with hm
    cases h
    rfl
  · intro st2 v h
    unfold MState.popList at h
    split_ifs at h with hm
    cases h
    rfl

/-- C9 witness: removing sprite 5 from list 0 of a concrete state leaves
the tracked sprite's back-references unchanged. -/
theorem c9_backrefs_never_shrink_witness :
    (MState.mk
        (Function.update (fun j => if j = 0 then ([5] : List Nat) else []) 0
          (([5] : List Nat).erase 5)) [3]).backrefs =
      (MState.mk (fun j => if j = 0 then ([5] : List Nat) else []) [3]).backrefs :=
  (c9_backrefs_never_shrink
      (MState.mk (fun j => if j = 0 then ([5] : List Nat) else []) [3]) 7 0 5).2.2.1
    (MState.mk
      (Function.update (fun j => if j = 0 then ([5] : List Nat) else []) 0
        (([5] : List Nat).erase 5)) [3]) rfl

/-- Errors raised by Sprite construction and texture switching, per the
spec taxonomy: IndexOutOfRange for an invalid frame index (Python
IndexError), TypeMismatch for assigning a non-Texture through the
texture property, InvalidArgument for bad construction dimensions. -/
inductive SpriteError where
  | IndexOutOfRange : SpriteError
  | TypeMismatch : SpriteError
  | InvalidArgument : SpriteError
deriving DecidableEq

/-- Python sequence indexing on a list of the given length: non-negative
indices address from the front, negative indices from the back, and
anything else raises IndexError (returned here as none). -/
def pyIndex (n : Int) (len : Nat) : Option Nat :=
  if 0 ≤ n ∧ n < (len : Int) then some n.toNat
  else if -(len : Int) ≤ n ∧ n < 0 then some (n + len).toNat
  else none

/-- Sprite.append_texture: appends to the frame list, no validation. -/
def Sprite.append_texture (s : Sprite) (t : Frame) : Sprite :=
  { s with textures := s.textures ++ [t] }

/-- Sprite.set_texture: `self.texture = self.textures[texture_no]` (an
IndexError if the index is invalid in Python's sense, then the texture
property's type check, which raises unless the value is a Texture
instance), then stores the raw index and recomputes width and height
from the frame's pixel size times the scale.  On either failure no field
has been assigned yet, so the sprite is unchanged. -/
noncomputable def Sprite.set_texture (s : Sprite) (texture_no : Int) :
    Except SpriteError Sprite :=
  match pyIndex texture_no s.textures.length with
  | none => .error .IndexOutOfRange
  | some i =>
    match s.textures.getD i .other with
    | .texture w h =>
      .ok { s with _texture := some (.texture w h),
                   cur_texture_index := texture_no,
                   width := w * s.scale,
                   height := h * s.scale }
    | .other => .error .TypeMismatch

/-- Sprite.__init__: validates the width/height arguments, then either
loads a texture (the external loader is abstracted as the already-loaded
frame carried by `filename`; the result is assigned through the
type-checking texture property) or starts frame-less; the remaining
fields are set up as in the source. -/
noncomputable def Sprite.init (filename : Option Frame)
    (scale x y width height : ℝ) : Except SpriteError Sprite :=
  if width < 0 then .error .InvalidArgument
  else if height < 0 then .error .InvalidArgument
  else if width = 0 ∧ height ≠ 0 then .error .InvalidArgument
  else if height = 0 ∧ width ≠ 0 then .error .InvalidArgument
  else
    match filename with
    | some (.texture w h) =>
      .ok { _texture := some (.texture w h), textures := [.texture w h],
            cur_texture_index := 0, scale := scale, center_x := 0,
            center_y := 0, width := w * scale, height := h * scale,
            angle := 0, change_x := 0, change_y := 0, change_angle := 0,
            alpha := 1, sprite_lists := [], transparent := true }
    | some .other => .error .TypeMismatch
    | none =>
      .ok { _texture := none, textures := [], cur_texture_index := 0,
            scale := scale, center_x := 0, center_y := 0, width := 0,
            height := 0, angle := 0, change_x := 0, change_y := 0,
            change_angle := 0, alpha := 1, sprite_lists := [],
            transparent := true }

lemma pyIndex_eq_none_iff (n : Int) (len : Nat) :
    pyIndex n len = none ↔ n < -(len : Int) ∨ (len : Int) ≤ n := by
  unfold pyIndex
  split_ifs with h1 h2 <;> simp <;> omega

/-- C5 counterexample: a sprite with one frame.  The claim says
set_texture fails with IndexOutOfRange for every index outside
[0, frameCount), but Python indexing accepts -1 on a one-frame list, so
set_texture (-1) succeeds. -/
theorem c5_counterexample :
    Sprite.set_texture
      { mkSprite 0 0 0 0 0 with textures := [Frame.texture 2 3] } (-1) ≠
      Except.error SpriteError.IndexOutOfRange := by
  have hp : pyIndex (-1)
      ({ mkSprite 0 0 0 0 0 with
         textures := [Frame.texture 2 3] } : Sprite).textures.length =
        some 0 := by
    unfold pyIndex
    norm_num
  unfold Sprite.set_texture
  rw [hp]
  simp

/-- C5 amended: set_texture fails with IndexOutOfRange exactly when the
index is invalid in Python's sense, i.e. outside
[-frameCount, frameCount) (negative indices address from the back); on
failure no field was assigned; and for an index in [0, frameCount) whose
stored frame is a Texture, it sets the active frame, stores the index,
and recomputes width and height as the frame's pixel size times the
sprite's scale. -/
theorem c5_set_texture_amended (s : Sprite) (i : Int) :
    (s.set_texture i = .error .IndexOutOfRange ↔
      (i < -(s.textures.length : Int) ∨ (s.textures.length : Int) ≤ i)) ∧
    (∀ w h, 0 ≤ i → i < (s.textures.length : Int) →
      s.textures.getD i.toNat .other = .texture w h →
      s.set_texture i = .ok
        { s with
          _texture := some (.texture w h),
          cur_texture_index := i,
          width := w * s.scale,
          height := h * s.scale }) := by
  constructor
  · cases hp : pyIndex i s.textures.length with
    | none =>
      unfold Sprite.set_texture
      rw [hp]
      simp only [true_iff]
      exact (pyIndex_eq_none_iff i s.textures.length).mp hp
    | some j =>
      unfold Sprite.set_texture
      rw [hp]
      have hne : ¬(i < -(s.textures.length : Int) ∨
          (s.textures.length : Int) ≤ i) := by
        intro hcond
        rw [← pyIndex_eq_none_iff i s.textures.length] at hcond
        rw [hp] at hcond
        cases hcond
      dsimp only
      cases hget : s.textures.getD j Frame.other with
      | texture w h => simp [hne]
      | other => simp [hne]
  · intro w h h0 hlen hget
    have hp : pyIndex i s.textures.length = some i.toNat := by
      unfold pyIndex
      rw [if_pos ⟨h0, hlen⟩]
    unfold Sprite.set_texture
    rw [hp]
    dsimp only
    rw [hget]

/-- A concrete sprite holding one real texture frame of pixel size 2 by
3, for the set_texture witnesses. -/
noncomputable def sFrame : Sprite :=
  { mkSprite 0 0 0 0 0 with textures := [Frame.texture 2 3] }

/-- C5 witness: on a one-frame sprite with a real texture of pixel size
2 by 3, set_texture 0 succeeds and rewrites the frame state. -/
theorem c5_set_texture_amended_witness :
    sFrame.set_texture 0 = .ok
      { sFrame with
        _texture := some (.texture 2 3),
        cur_texture_index := 0,
        width := 2 * sFrame.scale,
        height := 3 * sFrame.scale } :=
  (c5_set_texture_amended sFrame 0).2 2 3 (by decide) (by decide) rfl

/-- C6: construction fails with InvalidArgument exactly when width is
negative, height is negative, or exactly one of the two is zero;
width=5, height=0 fails; width=0, height=0 with no frame source succeeds
and yields the frame-less sprite with zero size, position (0,0), angle 0,
zero velocities, alpha 1 and an empty back-reference set. -/
theorem c6_init (o : Option Frame) (sc x y w h : ℝ) :
    (Sprite.init o sc x y w h = .error .InvalidArgument ↔
      (w < 0 ∨ h < 0 ∨ (w = 0 ∧ h ≠ 0) ∨ (h = 0 ∧ w ≠ 0))) ∧
    (Sprite.init o sc x y 5 0 = .error .InvalidArgument) ∧
    (Sprite.init none sc x y 0 0 =
      .ok { _texture := none, textures := [], cur_texture_index := 0,
            scale := sc, center_x := 0, center_y := 0, width := 0,
            height := 0, angle := 0, change_x := 0, change_y := 0,
            change_angle := 0, alpha := 1, sprite_lists := [],
            transparent := true }) := by
  refine ⟨?_, ?_, ?_⟩
  · unfold Sprite.init
    split_ifs with h1 h2 h3 h4
    · exact iff_of_true rfl (by tauto)
    · exact iff_of_true rfl (by tauto)
    · exact iff_of_true rfl (by tauto)
    · exact iff_of_true rfl (by tauto)
    · cases o with
      | none => exact iff_of_false (by simp) (by tauto)
      | some t =>
        cases t with
        | texture tw th => exact iff_of_false (by simp) (by tauto)
        | other => exact iff_of_false (by simp) (by tauto)
  · unfold Sprite.init
    norm_num
  · unfold Sprite.init
    norm_num

/-- C10: for a valid non-negative frame index whose stored frame is not
a Texture instance (append_texture performs no validation, so such
frames can exist), set_texture fails with TypeMismatch via the
type-checking texture property, before any field was assigned. -/
theorem c10_set_texture_type_mismatch (s : Sprite) (i : Int)
    (h0 : 0 ≤ i) (hlen : i < (s.textures.length : Int))
    (hother : s.textures.getD i.toNat .other = .other) :
    s.set_texture i = .error .TypeMismatch := by
  have hp : pyIndex i s.textures.length = some i.toNat := by
    unfold pyIndex
    rw [if_pos ⟨h0, hlen⟩]
  unfold Sprite.set_texture
  rw [hp]
  dsimp only
  rw [hother]

/-- C10 witness: a sprite whose only frame is a non-Texture value makes
set_texture 0 fail with TypeMismatch. -/
theorem c10_set_texture_type_mismatch_witness :
    Sprite.set_texture
        { mkSprite 0 0 0 0 0 with textures := [Frame.other] } 0 =
      .error .TypeMismatch :=
  c10_set_texture_type_mismatch
    { mkSprite 0 0 0 0 0 with textures := [Frame.other] } 0
    (by decide) (by norm_num) rfl

/-- State of PlatformerSpriteSheetSprite restricted to what the movement
command methods touch: the base sprite plus facing, speed, and the
frame-advance bookkeeping fields; the per-direction frame-index tables
are not needed by the movement commands. -/
structure PlatformerSpriteSheetSprite extends Sprite where
  last_change_x : ℝ
  facing : String
  texture_change_distance : ℝ
  speed : ℝ

/-- go_left: sets change_x = -speed unconditionally. -/
noncomputable def PlatformerSpriteSheetSprite.go_left
    (p : PlatformerSpriteSheetSprite) : PlatformerSpriteSheetSprite :=
  { p with change_x := -p.speed }

/-- stop_left: zeroes change_x only when it is currently negative. -/
noncomputable def PlatformerSpriteSheetSprite.stop_left
    (p : PlatformerSpriteSheetSprite) : PlatformerSpriteSheetSprite :=
  if p.change_x < 0 then { p with change_x := 0 } else p

/-- go_right: sets change_x = speed unconditionally. -/
noncomputable def PlatformerSpriteSheetSprite.go_right
    (p : PlatformerSpriteSheetSprite) : PlatformerSpriteSheetSprite :=
  { p with change_x := p.speed }

/-- stop_right: zeroes change_x only when it is currently positive. -/
noncomputable def PlatformerSpriteSheetSprite.stop_right
    (p : PlatformerSpriteSheetSprite) : PlatformerSpriteSheetSprite :=
  if p.change_x > 0 then { p with change_x := 0 } else p

/-- A concrete platformer sprite with the given horizontal velocity and
speed setting. -/
noncomputable def mkPlatformer (cx sp : ℝ) : PlatformerSpriteSheetSprite :=
  { toSprite := { mkSprite 0 0 0 0 0 with change_x := cx },
    last_change_x := 0, facing := "right",
    texture_change_distance := 0, speed := sp }

/-- C8 counterexample: with change_x = 1 already positive and speed = 2,
go_right overwrites change_x with 2; the claim says a positive change_x
is left unchanged, but the source's go_right assigns unconditionally. -/
theorem c8_counterexample :
    0 < (mkPlatformer 1 2).change_x ∧
    (mkPlatformer 1 2).go_right.change_x ≠ (mkPlatformer 1 2).change_x := by
  constructor
  · show (0 : ℝ) < 1
    norm_num
  · show (2 : ℝ) ≠ 1
    norm_num

/-- C8 amended: go_right and go_left set change_x to +speed and -speed
unconditionally; stop_right zeroes change_x only when it is currently
positive, leaving the whole sprite unchanged otherwise, and stop_left
symmetrically only when it is currently negative. -/
theorem c8_movement_amended (p : PlatformerSpriteSheetSprite) :
    (p.go_right.change_x = p.speed) ∧
    (p.go_left.change_x = -p.speed) ∧
    (0 < p.change_x → p.stop_right.change_x = 0) ∧
    (¬ 0 < p.change_x → p.stop_right = p) ∧
    (p.change_x < 0 → p.stop_left.change_x = 0) ∧
    (¬ p.change_x < 0 → p.stop_left = p) := by
  refine ⟨rfl, rfl, ?_, ?_, ?_, ?_⟩
  · intro h
    unfold PlatformerSpriteSheetSprite.stop_right
    rw [if_pos h]
  · intro h
    unfold PlatformerSpriteSheetSprite.stop_right
    rw [if_neg h]
  · intro h
    unfold PlatformerSpriteSheetSprite.stop_left
    rw [if_pos h]
  · intro h
    unfold PlatformerSpriteSheetSprite.stop_left
    rw [if_neg h]

/-- C8 witness: with change_x = 1 positive, stop_right zeroes it. -/
theorem c8_movement_amended_witness :
    (mkPlatformer 1 2).stop_right.change_x = 0 :=
  (c8_movement_amended (mkPlatformer 1 2)).2.2.1 (by
    show (0 : ℝ) < 1
    norm_num)

end Arcade
